import Mathlib

/-!
Shallow embedding of the `chow_test` package (src/chow_test/__init__.py).

Python runtime values that can be passed to the entry point are modelled by
the `PyVal` universe (integers, floats, pandas Series, pandas DataFrames);
floats are modelled as exact rationals.  A DataFrame is a list of rows, each
row a list of column values; a Series is a list of values.  Exceptions are
modelled by `Except PyError`.  The two external collaborators — the
least-squares fitting routine (sklearn `LinearRegression`) and the
F-distribution CDF (scipy `f.cdf`) — are abstract function parameters
`ols` and `fcdf`, exactly as the spec treats them (external collaborators,
not reimplemented).
-/

/-- Python values relevant to the entry point: `int`, `float`,
`pd.Series` (one numeric column) and `pd.DataFrame` (rows of numeric
columns). -/
inductive PyVal where
  | int : ℤ → PyVal
  | float : ℚ → PyVal
  | series : List ℚ → PyVal
  | dataframe : List (List ℚ) → PyVal
deriving Repr, DecidableEq

/-- Exceptions raised by the Python code: `TypeError`, `KeyError` and
`ZeroDivisionError`. -/
inductive PyError where
  | typeError : String → PyError
  | keyError : String → PyError
  | zeroDivisionError : PyError
deriving Repr, DecidableEq

/-- `isinstance(v, pd.Series)`. -/
def isSeries : PyVal → Bool
  | PyVal.series _ => true
  | _ => false

/-- `isinstance(v, pd.DataFrame)`. -/
def isDataFrame : PyVal → Bool
  | PyVal.dataframe _ => true
  | _ => false

/-- `isinstance(v, int)`. -/
def isInt : PyVal → Bool
  | PyVal.int _ => true
  | _ => false

/-- `isinstance(v, float)`. -/
def isFloat : PyVal → Bool
  | PyVal.float _ => true
  | _ => false

/-- Numeric value of a Python float (only used after an `isinstance` check). -/
def floatVal : PyVal → ℚ
  | PyVal.float q => q
  | _ => 0

/-- Python slice `l[: j]` (positional, end-exclusive; a negative stop counts
from the end; out-of-range stops clamp — pandas `[]`-slicing with integer
slices is positional, as for an ndarray). -/
def pySliceTo {α : Type} (l : List α) (j : ℤ) : List α :=
  if j < 0 then l.take ((l.length : ℤ) + j).toNat else l.take j.toNat

/-- Python slice `l[i :]` (positional; a negative start counts from the end;
out-of-range starts clamp). -/
def pySliceFrom {α : Type} (l : List α) (i : ℤ) : List α :=
  if i < 0 then l.drop ((l.length : ℤ) + i).toNat else l.drop i.toNat

/-- `shape[0]`: number of rows of a DataFrame or entries of a Series. -/
def shape0 : PyVal → ℤ
  | PyVal.series s => (s.length : ℤ)
  | PyVal.dataframe rows => (rows.length : ℤ)
  | _ => 0

/-- `shape[1]` of a DataFrame: its number of columns (length of a row). -/
def dfShape1 : PyVal → ℤ
  | PyVal.dataframe rows => ((rows.headD []).length : ℤ)
  | _ => 0

/-- `pd.DataFrame(X_series)` applied when `X_series` is a Series: the
normalization step of `chow_test` (lines 147-148) turning a single column
into a one-column DataFrame; a DataFrame is left unchanged. -/
def normalizeX : PyVal → PyVal
  | PyVal.series s => PyVal.dataframe (s.map (fun v => [v]))
  | v => v

/-- `_calculate_rss` (lines 6-29): type-check the arguments, fit the
regression collaborator `ols` (design matrix rows, response vector) and sum
the squared residuals.  Only the returned `rss` is modelled; the
`summary_result` frame is consumed solely to produce it. -/
def calculate_rss (ols : List (List ℚ) → List ℚ → List ℚ)
    (X_series y_series : PyVal) : Except PyError ℚ :=
  match X_series with
  | PyVal.dataframe rows =>
    match y_series with
    | PyVal.series ys =>
      let y_hat := ols rows ys
      let residuals_sq := (ys.zip y_hat).map (fun p => (p.1 - p.2) ^ 2)
      Except.ok residuals_sq.sum
    | _ => Except.error (PyError.typeError "The y_series argument must be a Pandas Series.")
  | _ => Except.error (PyError.typeError "The X_series argument should be a Pandas DataFrame.")

/-- `_data_preparation` (lines 32-57): type-check the arguments, then split
`X_series` and `y_series` with the Python slices `[: last_index]` and
`[first_index :]`. -/
def data_preparation (X_series y_series last_index first_index : PyVal) :
    Except PyError (PyVal × PyVal × PyVal × PyVal) :=
  match y_series with
  | PyVal.series ys =>
    match X_series with
    | PyVal.series xs =>
      match last_index, first_index with
      | PyVal.int li, PyVal.int fi =>
        Except.ok (PyVal.series (pySliceTo xs li), PyVal.series (pySliceFrom xs fi),
          PyVal.series (pySliceTo ys li), PyVal.series (pySliceFrom ys fi))
      | _, _ =>
        Except.error (PyError.typeError "The last_index and first_index arguments must be integer types.")
    | PyVal.dataframe rows =>
      match last_index, first_index with
      | PyVal.int li, PyVal.int fi =>
        Except.ok (PyVal.dataframe (pySliceTo rows li), PyVal.dataframe (pySliceFrom rows fi),
          PyVal.series (pySliceTo ys li), PyVal.series (pySliceFrom ys fi))
      | _, _ =>
        Except.error (PyError.typeError "The last_index and first_index arguments must be integer types.")
    | _ =>
      Except.error (PyError.typeError "The X_series argument must be a Pandas Series or a Pandas DataFrame.")
  | _ => Except.error (PyError.typeError "The y_series argument must be a Pandas Series.")

/-- `_calculate_chow_statistic` (lines 60-85), numeric part (the
`isinstance` checks hold for all values this model can pass).  Python
evaluates `numerator = .. / k_value` first (`ZeroDivisionError` if
`k_value == 0`), then `denominator = (rss_one + rss_two) / (n1 + n2 - 2k)`
(`ZeroDivisionError` if that divisor is zero — this division is OUTSIDE the
`try`), and only the final `numerator / denominator` is guarded by
`try/except ZeroDivisionError`, which returns 0. -/
def calculate_chow_statistic (pooled_rss_value rss_one rss_two : ℚ)
    (k_value n_one_value n_two_value : ℤ) : Except PyError ℚ :=
  if k_value = 0 then Except.error PyError.zeroDivisionError
  else if n_one_value + n_two_value - 2 * k_value = 0 then
    Except.error PyError.zeroDivisionError
  else if (rss_one + rss_two) / ((n_one_value + n_two_value - 2 * k_value : ℤ) : ℚ) = 0 then
    Except.ok 0
  else
    Except.ok (((pooled_rss_value - (rss_one + rss_two)) / (k_value : ℚ)) /
      ((rss_one + rss_two) / ((n_one_value + n_two_value - 2 * k_value : ℤ) : ℚ)))

/-- `_determine_p_value_significance` (lines 88-116), numeric part.
`fcdf s dfn dfd` is the F-distribution collaborator `f.cdf(s, dfn=.., dfd=..)`.
Returns the `(chow_statistic, p_value)` pair together with the list of lines
printed to standard output (empty unless `verbose`; in Python `verbose`
defaults to `True`, and `chow_test` relies on that default). -/
def determine_p_value_significance (fcdf : ℚ → ℤ → ℤ → ℚ) (chow_statistic : ℚ)
    (n_one_value n_two_value k_value : ℤ) (significance_level : ℚ) (verbose : Bool) :
    (ℚ × ℚ) × List String :=
  let p_value : ℚ := 1 - fcdf chow_statistic k_value ((n_one_value + n_two_value) - 2 * k_value)
  let verdict : List String :=
    if p_value ≤ significance_level ∧ verbose = true then
      ["Reject the null hypothesis of equality of regression coefficients in the two periods."]
    else if significance_level < p_value ∧ verbose = true then
      ["Fail to reject the null hypothesis of equality of regression coefficients in the two periods."]
    else []
  let stats_line : List String :=
    if verbose = true then
      ["Chow Statistic: " ++ toString chow_statistic ++ ", P_value: " ++ toString p_value]
    else []
  ((chow_statistic, p_value), verdict ++ stats_line)

/-- The validation block of `chow_test` (lines 136-145): four `isinstance`
checks in source order, then membership of `significance` in
`[0.01, 0.05, 0.1]`.  It runs before any numeric computation. -/
def chow_test_validation (X_series y_series last_index first_index significance : PyVal) :
    Except PyError Unit :=
  if isSeries y_series = false then
    Except.error (PyError.typeError "The y_series argument must be a Pandas Series.")
  else if (isSeries X_series || isDataFrame X_series) = false then
    Except.error (PyError.typeError "The X_series argument must be a Pandas Series or a Pandas DataFrame.")
  else if (isInt last_index && isInt first_index) = false then
    Except.error (PyError.typeError "The last_index and first_index arguments must be integer types.")
  else if isFloat significance = false then
    Except.error (PyError.typeError "The significance argument must be a float type.")
  else if floatVal significance = 1/100 ∨ floatVal significance = 1/20 ∨
      floatVal significance = 1/10 then
    Except.ok ()
  else Except.error (PyError.keyError "The significance argument must be 0.01, 0.05 or 0.1")

/-- `chow_test` (lines 119-158): validation, Series-to-DataFrame
normalization, pooled RSS, split, per-subset RSS, `k = shape[1] + 1`,
subset sizes, statistic, significance evaluation (with the default
`verbose=True`).  Any exception raised by a step propagates to the caller. -/
def chow_test (ols : List (List ℚ) → List ℚ → List ℚ) (fcdf : ℚ → ℤ → ℤ → ℚ)
    (X_series y_series last_index first_index significance : PyVal) :
    Except PyError (ℚ × ℚ) :=
  match chow_test_validation X_series y_series last_index first_index significance with
  | Except.error e => Except.error e
  | Except.ok _ =>
    let X : PyVal := normalizeX X_series
    match calculate_rss ols X y_series with
    | Except.error e => Except.error e
    | Except.ok rss_pooled =>
      match data_preparation X y_series last_index first_index with
      | Except.error e => Except.error e
      | Except.ok (X_one, X_two, y_one, y_two) =>
        match calculate_rss ols X_one y_one with
        | Except.error e => Except.error e
        | Except.ok first_rss =>
          match calculate_rss ols X_two y_two with
          | Except.error e => Except.error e
          | Except.ok second_rss =>
            let k : ℤ := dfShape1 X + 1
            let n_one : ℤ := shape0 X_one
            let n_two : ℤ := shape0 X_two
            match calculate_chow_statistic rss_pooled first_rss second_rss k n_one n_two with
            | Except.error e => Except.error e
            | Except.ok chow_value =>
              Except.ok (determine_p_value_significance fcdf chow_value n_one n_two k
                (floatVal significance) true).1

/-- A concrete regression collaborator for witnesses: predicts 0 for every
observation (a legitimate instance of the abstract `ols` interface). -/
def olsZero : List (List ℚ) → List ℚ → List ℚ :=
  fun _ ys => ys.map (fun _ => 0)

/-- A concrete F-distribution collaborator for witnesses: constant CDF 1/2
(lies in [0,1] everywhere). -/
def fcdfHalf : ℚ → ℤ → ℤ → ℚ :=
  fun _ _ _ => 1/2

/-- Helper: the first component returned by `determine_p_value_significance`
always carries `p_value = 1 - fcdf stat k (n1 + n2 - 2k)` as its second
entry, whatever the verbosity. -/
theorem determine_fst_snd_eq (fcdf : ℚ → ℤ → ℤ → ℚ) (chow_statistic : ℚ) (n1 n2 k : ℤ)
    (significance_level : ℚ) (verbose : Bool) :
    ((determine_p_value_significance fcdf chow_statistic n1 n2 k significance_level verbose).1).2
      = 1 - fcdf chow_statistic k ((n1 + n2) - 2 * k) := rfl

/-- Helper: any successful `chow_test` result is the pair produced by
`determine_p_value_significance` at some intermediate values. -/
theorem chow_test_ok_shape (ols : List (List ℚ) → List ℚ → List ℚ) (fcdf : ℚ → ℤ → ℤ → ℚ)
    (X_series y_series last_index first_index significance : PyVal) (pr : ℚ × ℚ)
    (h : chow_test ols fcdf X_series y_series last_index first_index significance
          = Except.ok pr) :
    ∃ cv n1 n2 k, pr
      = (determine_p_value_significance fcdf cv n1 n2 k (floatVal significance) true).1 := by
  simp only [chow_test] at h
  split at h
  · exact absurd h (by simp)
  · split at h
    · exact absurd h (by simp)
    · split at h
      · exact absurd h (by simp)
      · split at h
        · exact absurd h (by simp)
        · split at h
          · exact absurd h (by simp)
          · split at h
            · exact absurd h (by simp)
            · injection h with h2
              exact ⟨_, _, _, _, h2.symm⟩

/-- Claim C1, counterexample: a `chow_test` call whose subset sizes satisfy
N1 + N2 = 2k (here N1 = N2 = 2, k = 2) propagates a `ZeroDivisionError` to
the caller instead of returning a statistic of 0: the division
`(rss_one + rss_two) / (n_one + n_two - 2k)` sits OUTSIDE the
`try/except` block of `_calculate_chow_statistic`. -/
theorem C1_counterexample :
    chow_test olsZero fcdfHalf (PyVal.dataframe [[1], [2], [3], [4], [5]])
        (PyVal.series [1, 2, 3, 4, 5]) (PyVal.int 2) (PyVal.int 3) (PyVal.float (1/20))
      = Except.error PyError.zeroDivisionError := by
  norm_num [chow_test, chow_test_validation, normalizeX, calculate_rss, data_preparation,
    calculate_chow_statistic, olsZero, fcdfHalf, isSeries, isDataFrame, isInt, isFloat,
    floatVal, pySliceTo, pySliceFrom, shape0, dfShape1]

/-- Claim C1, amended: whenever `k ≠ 0` and `N1 + N2 = 2k`, the statistic
calculator raises `ZeroDivisionError` (which `chow_test` does not catch),
for every combination of RSS values; the degenerate divisor is NOT turned
into a 0 statistic. -/
theorem C1_degenerate_divisor (pooled rss1 rss2 : ℚ) (k n1 n2 : ℤ) (hk : k ≠ 0)
    (h2k : n1 + n2 = 2 * k) :
    calculate_chow_statistic pooled rss1 rss2 k n1 n2
      = Except.error PyError.zeroDivisionError := by
  unfold calculate_chow_statistic
  rw [if_neg hk, if_pos (by omega)]

/-- Witness for `C1_degenerate_divisor` at k = 2, N1 = N2 = 2. -/
theorem C1_degenerate_divisor_witness :
    calculate_chow_statistic 10 1 1 2 2 2 = Except.error PyError.zeroDivisionError :=
  C1_degenerate_divisor 10 1 1 2 2 2 (by norm_num) (by norm_num)

/-- Claim C2, code evaluated at the failing input: with three rows,
`last_index = 1` and `first_index = 2 = last_index + 1`, the splitter
returns a before-subset that EXCLUDES the row at position `last_index`
(`X[: last_index]` is an end-exclusive positional slice), so the middle row
(value 20, row [2]) lands in neither subset even though the docstring calls
`last_index` "the final index value to be included before the data split". -/
theorem C2_split_drops_boundary_row :
    data_preparation (PyVal.dataframe [[1], [2], [3]]) (PyVal.series [10, 20, 30])
        (PyVal.int 1) (PyVal.int 2)
      = Except.ok (PyVal.dataframe [[1]], PyVal.dataframe [[3]],
          PyVal.series [10], PyVal.series [30]) := rfl

/-- Claim C3, counterexample: `last_index = 100` is far outside the 3-row
series, yet `chow_test` raises no invalid-argument error at all — the slices
clamp and the call returns a normal `(statistic, p_value)` result. -/
theorem C3_out_of_range_counterexample :
    chow_test olsZero fcdfHalf (PyVal.dataframe [[1], [2], [3]]) (PyVal.series [1, 2, 3])
        (PyVal.int 100) (PyVal.int 1) (PyVal.float (1/20))
      = Except.ok (-13/54, 1/2) := by
  norm_num [chow_test, chow_test_validation, normalizeX, calculate_rss, data_preparation,
    calculate_chow_statistic, determine_p_value_significance, olsZero, fcdfHalf, isSeries,
    isDataFrame, isInt, isFloat, floatVal, pySliceTo, pySliceFrom, shape0, dfShape1,
    Int.toNat_ofNat, List.take_of_length_le]

/-- Claim C3, amended: the split indices are validated only for integer
TYPE, never for range — the validation block of `chow_test` produces the
same outcome for any two pairs of integer index values, so an out-of-range
integer index can never be rejected before the numeric computation. -/
theorem C3_no_range_check (X_series y_series significance : PyVal) (li fi li2 fi2 : ℤ) :
    chow_test_validation X_series y_series (PyVal.int li) (PyVal.int fi) significance
      = chow_test_validation X_series y_series (PyVal.int li2) (PyVal.int fi2) significance := rfl

/-- Claim C4: with k nonzero and a nonzero denominator
`(RSS1 + RSS2) / (N1 + N2 - 2k)`, the statistic calculator returns exactly
`((RSS_pooled - (RSS1 + RSS2)) / k) / ((RSS1 + RSS2) / (N1 + N2 - 2k))`. -/
theorem C4_statistic_formula (pooled rss1 rss2 : ℚ) (k n1 n2 : ℤ) (hk : k ≠ 0)
    (hden : (rss1 + rss2) / ((n1 + n2 - 2 * k : ℤ) : ℚ) ≠ 0) :
    calculate_chow_statistic pooled rss1 rss2 k n1 n2
      = Except.ok (((pooled - (rss1 + rss2)) / (k : ℚ)) /
          ((rss1 + rss2) / ((n1 + n2 - 2 * k : ℤ) : ℚ))) := by
  have hz : ¬ (n1 + n2 - 2 * k = 0) := by
    intro h0
    apply hden
    rw [h0]
    norm_num
  unfold calculate_chow_statistic
  rw [if_neg hk, if_neg hz, if_neg hden]

/-- Witness for `C4_statistic_formula`: pooled RSS 3, RSS1 = RSS2 = 1,
k = 1, N1 = 2, N2 = 1 gives ((3 - 2)/1) / (2/1) = 1/2. -/
theorem C4_statistic_formula_witness :
    calculate_chow_statistic 3 1 1 1 2 1 = Except.ok (1/2) := by
  have h := C4_statistic_formula 3 1 1 1 2 1 (by norm_num) (by norm_num)
  rw [h]
  norm_num

/-- Claim C5: for Series/DataFrame-typed data and integer indices, a float
significance value passes the validation block of `chow_test` exactly when
it is 0.01, 0.05 or 0.1, and every other float value is rejected with a
`KeyError` naming the significance parameter (raised before any numeric
computation, since validation is the first step of `chow_test`). -/
theorem C5_significance_membership (X_series y_series : PyVal) (li fi : ℤ) (q : ℚ)
    (hy : isSeries y_series = true) (hX : (isSeries X_series || isDataFrame X_series) = true) :
    (chow_test_validation X_series y_series (PyVal.int li) (PyVal.int fi) (PyVal.float q)
        = Except.ok () ↔ q = 1/100 ∨ q = 1/20 ∨ q = 1/10)
    ∧ (¬(q = 1/100 ∨ q = 1/20 ∨ q = 1/10) →
        chow_test_validation X_series y_series (PyVal.int li) (PyVal.int fi) (PyVal.float q)
          = Except.error (PyError.keyError "The significance argument must be 0.01, 0.05 or 0.1")) := by
  by_cases hq : q = 1/100 ∨ q = 1/20 ∨ q = 1/10
  · simp [chow_test_validation, hy, hX, isInt, isFloat, floatVal, hq]
    tauto
  · simp [chow_test_validation, hy, hX, isInt, isFloat, floatVal, hq]
    tauto

/-- Witness for `C5_significance_membership`: significance 0.5 is rejected
with the `KeyError`. -/
theorem C5_significance_membership_witness :
    chow_test_validation (PyVal.dataframe [[1]]) (PyVal.series [1]) (PyVal.int 0) (PyVal.int 1)
        (PyVal.float (1/2))
      = Except.error (PyError.keyError "The significance argument must be 0.01, 0.05 or 0.1") :=
  (C5_significance_membership (PyVal.dataframe [[1]]) (PyVal.series [1]) 0 1 (1/2) rfl rfl).2
    (by norm_num)

/-- Claim C6: the significance evaluator computes
`p_value = 1 - fcdf(statistic, dfn = k, dfd = N1 + N2 - 2k)` for every
statistic, k, N1, N2, significance level and verbosity setting. -/
theorem C6_p_value_formula (fcdf : ℚ → ℤ → ℤ → ℚ) (chow_statistic : ℚ) (n1 n2 k : ℤ)
    (significance_level : ℚ) (verbose : Bool) :
    ((determine_p_value_significance fcdf chow_statistic n1 n2 k significance_level
          verbose).1).2
      = 1 - fcdf chow_statistic k ((n1 + n2) - 2 * k) := rfl

/-- Claim C7: whenever the F-distribution collaborator returns cumulative
probabilities in [0, 1], every successful `chow_test` call returns a
p_value with 0 ≤ p_value ≤ 1. -/
theorem C7_p_value_bounds (ols : List (List ℚ) → List ℚ → List ℚ) (fcdf : ℚ → ℤ → ℤ → ℚ)
    (X_series y_series last_index first_index significance : PyVal) (s p : ℚ)
    (hf : ∀ x a b, 0 ≤ fcdf x a b ∧ fcdf x a b ≤ 1)
    (h : chow_test ols fcdf X_series y_series last_index first_index significance
          = Except.ok (s, p)) :
    0 ≤ p ∧ p ≤ 1 := by
  obtain ⟨cv, n1, n2, k, hpr⟩ :=
    chow_test_ok_shape ols fcdf X_series y_series last_index first_index significance (s, p) h
  have hp : p = 1 - fcdf cv k ((n1 + n2) - 2 * k) := by
    have := congrArg Prod.snd hpr
    rwa [determine_fst_snd_eq] at this
  obtain ⟨h0, h1⟩ := hf cv k ((n1 + n2) - 2 * k)
  constructor
  · rw [hp]; linarith
  · rw [hp]; linarith

/-- Witness for `C7_p_value_bounds`: a concrete successful run (4 rows,
split 1/2, significance 0.05, constant-1/2 CDF) returning p_value 1/2. -/
theorem C7_p_value_bounds_witness : 0 ≤ (1 : ℚ)/2 ∧ (1 : ℚ)/2 ≤ 1 :=
  C7_p_value_bounds olsZero fcdfHalf (PyVal.dataframe [[1], [2], [3], [4]])
    (PyVal.series [1, 2, 3, 4]) (PyVal.int 1) (PyVal.int 2) (PyVal.float (1/20)) (-1/13) (1/2)
    (fun x a b => by norm_num [fcdfHalf])
    (by norm_num [chow_test, chow_test_validation, normalizeX, calculate_rss, data_preparation,
      calculate_chow_statistic, determine_p_value_significance, olsZero, fcdfHalf, isSeries,
      isDataFrame, isInt, isFloat, floatVal, pySliceTo, pySliceFrom, shape0, dfShape1,
      show Int.toNat 1 = 1 from rfl, show Int.toNat 2 = 2 from rfl])

/-- Claim C8: supplying X as a single column (Series) and as the same data
in a one-column table (DataFrame) yields identical `chow_test` results, for
every regression and CDF collaborator and all other arguments equal —
the Series is normalized to the one-column DataFrame before any
computation. -/
theorem C8_series_vs_dataframe (ols : List (List ℚ) → List ℚ → List ℚ)
    (fcdf : ℚ → ℤ → ℤ → ℚ) (col : List ℚ)
    (y_series last_index first_index significance : PyVal) :
    chow_test ols fcdf (PyVal.series col) y_series last_index first_index significance
      = chow_test ols fcdf (PyVal.dataframe (col.map (fun v => [v]))) y_series last_index
          first_index significance := rfl

/-- Claim C9: the `(statistic, p_value)` pair returned by the significance
evaluator is the same for any two verbosity settings (the toggle only
affects the printed diagnostics), and its first component is always the
statistic that was passed in — the pair is returned unconditionally,
whichever side of the significance comparison the p_value falls on. -/
theorem C9_verbose_no_effect (fcdf : ℚ → ℤ → ℤ → ℚ) (chow_statistic : ℚ) (n1 n2 k : ℤ)
    (significance_level : ℚ) (v1 v2 : Bool) :
    (determine_p_value_significance fcdf chow_statistic n1 n2 k significance_level v1).1
        = (determine_p_value_significance fcdf chow_statistic n1 n2 k significance_level v2).1
      ∧ ((determine_p_value_significance fcdf chow_statistic n1 n2 k significance_level v1).1).1
        = chow_statistic :=
  ⟨rfl, rfl⟩

/-- Claim C10: when RSS1 + RSS2 = 0 (perfect sub-period fits) while
N1 + N2 - 2k is nonzero (and k nonzero, as it always is in `chow_test`,
where k = columns + 1), the denominator evaluates to zero and the guarded
final division returns a statistic of 0 instead of raising. -/
theorem C10_zero_rss_guard (pooled rss1 rss2 : ℚ) (k n1 n2 : ℤ) (hk : k ≠ 0)
    (hn : n1 + n2 - 2 * k ≠ 0) (hrss : rss1 + rss2 = 0) :
    calculate_chow_statistic pooled rss1 rss2 k n1 n2 = Except.ok 0 := by
  unfold calculate_chow_statistic
  rw [if_neg hk, if_neg hn, if_pos (by rw [hrss]; norm_num)]

/-- Witness for `C10_zero_rss_guard`: pooled RSS 7, RSS1 = RSS2 = 0, k = 1,
N1 = 2, N2 = 1 returns the statistic 0. -/
theorem C10_zero_rss_guard_witness : calculate_chow_statistic 7 0 0 1 2 1 = Except.ok 0 :=
  C10_zero_rss_guard 7 0 0 1 2 1 (by norm_num) (by norm_num) (by norm_num)
